import Mathlib

/-!
Shallow embedding of the data-access layer of the demo-api-test repository
(`src/Tools/db.py` over the entity model of `src/Tools/models.py`).

The relational store is modelled as lists of rows; a transaction that fails
returns the input state unchanged (the `get_session` context manager commits
on success and rolls back on any exception before re-raising).
-/

/-- A row of the `users` table (`src/Tools/models.py`, class `User`).
Timestamps are irrelevant to the verified claims and omitted. -/
structure UserRow where
  id : Nat
  first_name : String
  last_name : String
  nickname : String
  password : String
  email : String
  birthdate : String
  location : Option String
  gender : Option String
  job_title : Option String
  phone : Option String
deriving Repr, DecidableEq

/-- A row of the `posts` table (`src/Tools/models.py`, class `Post`). -/
structure PostRow where
  id : Nat
  author_id : Nat
  title : String
  content : String
  rating : Int
  views : Nat
  is_published : Bool
deriving Repr, DecidableEq

/-- A row of the `tags` table (`src/Tools/models.py`, class `Tag`). -/
structure TagRow where
  id : Nat
  title : String
  description : Option String
deriving Repr, DecidableEq

/-- The persisted state: the three tables plus the `posts_tags` association
table, whose rows are (post_id, tag_id) pairs. -/
structure DBState where
  users : List UserRow
  posts : List PostRow
  tags : List TagRow
  postTags : List (Nat × Nat)
deriving Repr, DecidableEq

/-- database with freshly recreated empty schema. -/
def emptyDB : DBState := ⟨[], [], [], []⟩

/-- SQL `ilike` with `%pat%`: case-insensitive substring containment. -/
def strContainsCI (hay pat : String) : Bool :=
  decide (pat.toLower.toList <:+: hay.toLower.toList)

/-- `ilike` on a nullable column: SQL NULL matches nothing. -/
def optContainsCI (hay : Option String) (pat : String) : Bool :=
  match hay with
  | none => false
  | some s => strContainsCI s pat

/-- Python truthiness of an optional string filter value
(`if search_params.nickname:` — absent or empty string is falsy). -/
def truthyStr (v : Option String) : Bool :=
  match v with
  | none => false
  | some s => s ≠ ""

/-! ## Input shapes

`src/Tools/db.py` imports these from `Tools.schemas`, a file of the
repository not present under `src/`; their field sets are modelled from the
spec (§4.2): update shapes have every field optional with only explicitly
present fields applied, search shapes carry optional text filters plus
`skip` / `limit` and eager-load flags. -/

/-- `PostCreate` input (title, content, published flag, optional tag-id list;
`db.py` reads exactly these four attributes). An absent or empty tag list is
falsy in `if post_data.tag_ids:`, so it is modelled as a plain list whose
emptiness stands for Python falsiness. -/
structure PostCreate where
  title : String
  content : String
  is_published : Bool
  tag_ids : List Nat
deriving Repr, DecidableEq

/-- Modelled from the spec: `UserUpdate` of the absent `Tools/schemas.py` —
every field optional; only fields explicitly present are applied. The outer
`Option` is presence (pydantic exclude_unset); for a nullable column the
inner value is itself an `Option`. -/
structure UserUpdate where
  first_name : Option String := none
  last_name : Option String := none
  nickname : Option String := none
  password : Option String := none
  email : Option String := none
  birthdate : Option String := none
  location : Option (Option String) := none
  gender : Option (Option String) := none
  job_title : Option (Option String) := none
  phone : Option (Option String) := none
deriving Repr, DecidableEq

/-- Modelled from the spec: `PostUpdate` of the absent `Tools/schemas.py` —
every field optional. `tag_ids` may be explicitly present yet null
(`db.py` tests `if tag_ids is not None:` after popping it), hence the
doubled `Option`. -/
structure PostUpdate where
  title : Option String := none
  content : Option String := none
  is_published : Option Bool := none
  tag_ids : Option (Option (List Nat)) := none
deriving Repr, DecidableEq

/-- Modelled from the spec: `TagUpdate` of the absent `Tools/schemas.py` —
title and description, every field optional. -/
structure TagUpdate where
  title : Option String := none
  description : Option (Option String) := none
deriving Repr, DecidableEq

/-- Modelled from the spec: `UserSearch` of the absent `Tools/schemas.py` —
the four text filters `db.py` reads, the eager-load flag, and pagination. -/
structure UserSearch where
  nickname : Option String := none
  email : Option String := none
  location : Option String := none
  job_title : Option String := none
  include_posts : Bool := true
  skip : Nat := 0
  limit : Nat := 100
deriving Repr, DecidableEq

/-- Modelled from the spec: `PostSearch` of the absent `Tools/schemas.py` —
the two text filters `db.py` reads, the eager-load flags, and pagination. -/
structure PostSearch where
  title : Option String := none
  content : Option String := none
  include_author : Bool := true
  include_tags : Bool := true
  skip : Nat := 0
  limit : Nat := 100
deriving Repr, DecidableEq

/-! ## Generic primitives and User operations (`src/Tools/db.py`) -/

/-- `session.get(model, id)`: the row with the given primary key
(`DatabaseManager._get_by_id`). -/
def getUserById (db : DBState) (id : Nat) : Option UserRow :=
  db.users.find? (fun u => u.id = id)

def getPostById (db : DBState) (id : Nat) : Option PostRow :=
  db.posts.find? (fun p => p.id = id)

def getTagById (db : DBState) (id : Nat) : Option TagRow :=
  db.tags.find? (fun t => t.id = id)

/-- `DatabaseManager._update` driven by `model_dump(exclude_unset=True)`:
each explicitly present field is written, omitted fields are untouched. -/
def applyUserUpdate (u : UserRow) (d : UserUpdate) : UserRow :=
  { u with
    first_name := d.first_name.getD u.first_name
    last_name := d.last_name.getD u.last_name
    nickname := d.nickname.getD u.nickname
    password := d.password.getD u.password
    email := d.email.getD u.email
    birthdate := d.birthdate.getD u.birthdate
    location := d.location.getD u.location
    gender := d.gender.getD u.gender
    job_title := d.job_title.getD u.job_title
    phone := d.phone.getD u.phone }

/-- The non-association fields of `update_post` applied by
`DatabaseManager._update` after `tag_ids` is popped. -/
def applyPostUpdate (p : PostRow) (d : PostUpdate) : PostRow :=
  { p with
    title := d.title.getD p.title
    content := d.content.getD p.content
    is_published := d.is_published.getD p.is_published }

def applyTagUpdate (t : TagRow) (d : TagUpdate) : TagRow :=
  { t with
    title := d.title.getD t.title
    description := d.description.getD t.description }

/-- `DatabaseManager.update_user`: absent id yields `None`; otherwise the
present fields are applied and the transaction commits. -/
def update_user (db : DBState) (user_id : Nat) (d : UserUpdate) :
    Option UserRow × DBState :=
  match getUserById db user_id with
  | none => (none, db)
  | some u =>
    let users := db.users.map (fun q => if q.id = user_id then applyUserUpdate q d else q)
    (some (applyUserUpdate u d), { db with users := users })

/-- `DatabaseManager.delete_user`: `False` on an absent id; on success the
row is removed, the user's posts cascade away (`cascade="all, delete-orphan"`
on `User.posts`), and the association rows of those posts cascade with them
(`ondelete="CASCADE"` on `posts_tags.post_id`). -/
def delete_user (db : DBState) (user_id : Nat) : Bool × DBState :=
  match getUserById db user_id with
  | none => (false, db)
  | some _ =>
    let removed := db.posts.filter (fun p => p.author_id = user_id)
    let users := db.users.filter (fun u => u.id ≠ user_id)
    let posts := db.posts.filter (fun p => p.author_id ≠ user_id)
    let postTags := db.postTags.filter (fun pt => ¬ removed.any (fun p => p.id = pt.1))
    (true, { db with users := users, posts := posts, postTags := postTags })

/-! ## Search (`DatabaseManager.search_users` / `search_posts`) -/

/-- The filter list built by `search_users`: one `ilike` clause per provided
(truthy) text filter, in source order. -/
def userFilterClauses (p : UserSearch) : List (UserRow → Bool) :=
  (if truthyStr p.nickname then [fun u => strContainsCI u.nickname (p.nickname.getD "")] else [])
  ++ (if truthyStr p.email then [fun u => strContainsCI u.email (p.email.getD "")] else [])
  ++ (if truthyStr p.location then [fun u => optContainsCI u.location (p.location.getD "")] else [])
  ++ (if truthyStr p.job_title then [fun u => optContainsCI u.job_title (p.job_title.getD "")] else [])

/-- `if filters: query = query.filter(or_(*filters))` — an empty clause list
leaves the query unfiltered, otherwise the clauses are OR-ed. -/
def userMatches (p : UserSearch) (u : UserRow) : Bool :=
  match userFilterClauses p with
  | [] => true
  | fs => fs.any (fun f => f u)

/-- `.offset(skip).limit(limit)` applied to a row sequence. -/
def paginate {α : Type} (rows : List α) (skip limit : Nat) : List α :=
  (rows.drop skip).take limit

def search_users (db : DBState) (p : UserSearch) : List UserRow :=
  paginate (db.users.filter (userMatches p)) p.skip p.limit

/-- The filter list built by `search_posts`. -/
def postFilterClauses (p : PostSearch) : List (PostRow → Bool) :=
  (if truthyStr p.title then [fun q => strContainsCI q.title (p.title.getD "")] else [])
  ++ (if truthyStr p.content then [fun q => strContainsCI q.content (p.content.getD "")] else [])

def postMatches (p : PostSearch) (q : PostRow) : Bool :=
  match postFilterClauses p with
  | [] => true
  | fs => fs.any (fun f => f q)

def search_posts (db : DBState) (p : PostSearch) : List PostRow :=
  paginate (db.posts.filter (postMatches p)) p.skip p.limit

/-! ## Post operations -/

/-- `select(Tag).where(Tag.id.in_(tag_ids))`: the tag rows whose id occurs in
the given list — each stored row at most once, in table order. -/
def tagsLookup (db : DBState) (ids : List Nat) : List TagRow :=
  db.tags.filter (fun t => ids.contains t.id)

/-- `set(tag_ids) - {tag.id for tag in tags}` where `tags = tagsLookup db ids`:
the distinct input ids that matched no stored tag row. -/
def missingTagIds (db : DBState) (ids : List Nat) : List Nat :=
  (ids.filter (fun i => ¬ (tagsLookup db ids).any (fun t => t.id = i))).dedup

/-- Outcome of `DatabaseManager.create_post`: `authorNotFound` is Python
`None`, `tagsNotFound` the `ValueError("Tags not found: ...")`. -/
inductive CreatePostResult where
  | authorNotFound : CreatePostResult
  | tagsNotFound (missing : List Nat) : CreatePostResult
  | ok (post : PostRow) : CreatePostResult
deriving Repr, DecidableEq

/-- Server-assigned primary key of a freshly inserted post. -/
def nextPostId (db : DBState) : Nat :=
  (db.posts.map (fun p => p.id)).foldr max 0 + 1

/-- `DatabaseManager.create_post`. The author is looked up first; then, when
a truthy tag-id list is supplied, the matching tags are fetched and the call
fails if their count differs from the list length; otherwise the post and its
association rows are inserted. A failing call returns the state unchanged
(the session wrapper rolls the transaction back). -/
def create_post (db : DBState) (author_id : Nat) (pd : PostCreate) :
    CreatePostResult × DBState :=
  match getUserById db author_id with
  | none => (.authorNotFound, db)
  | some _ =>
    let post : PostRow :=
      { id := nextPostId db, author_id := author_id, title := pd.title,
        content := pd.content, rating := 0, views := 0,
        is_published := pd.is_published }
    if pd.tag_ids ≠ [] then
      let tags := tagsLookup db pd.tag_ids
      if tags.length ≠ pd.tag_ids.length then
        (.tagsNotFound (missingTagIds db pd.tag_ids), db)
      else
        (.ok post,
         { db with posts := db.posts ++ [post],
                   postTags := db.postTags ++ tags.map (fun t => (post.id, t.id)) })
    else
      (.ok post, { db with posts := db.posts ++ [post] })

/-- Outcome of `DatabaseManager.update_post`. -/
inductive UpdatePostResult where
  | notFound : UpdatePostResult
  | tagsNotFound (missing : List Nat) : UpdatePostResult
  | ok (post : PostRow) : UpdatePostResult
deriving Repr, DecidableEq

/-- `DatabaseManager.update_post`: absent id yields `None`; a present non-null
`tag_ids` is validated and then fully replaces the post's association set;
the remaining present fields are applied afterwards. A failing tag check
aborts the whole update with the state unchanged (rollback). -/
def update_post (db : DBState) (post_id : Nat) (d : PostUpdate) :
    UpdatePostResult × DBState :=
  match getPostById db post_id with
  | none => (.notFound, db)
  | some p =>
    let posts := db.posts.map (fun q => if q.id = post_id then applyPostUpdate q d else q)
    match d.tag_ids with
    | some (some ids) =>
      let tags := tagsLookup db ids
      if tags.length ≠ ids.length then
        (.tagsNotFound (missingTagIds db ids), db)
      else
        let postTags := db.postTags.filter (fun pt => pt.1 ≠ post_id)
          ++ tags.map (fun t => (post_id, t.id))
        (.ok (applyPostUpdate p d), { db with posts := posts, postTags := postTags })
    | _ =>
      (.ok (applyPostUpdate p d), { db with posts := posts })

/-- `DatabaseManager.delete_post`: association rows cascade with the post. -/
def delete_post (db : DBState) (post_id : Nat) : Bool × DBState :=
  match getPostById db post_id with
  | none => (false, db)
  | some _ =>
    let posts := db.posts.filter (fun p => p.id ≠ post_id)
    let postTags := db.postTags.filter (fun pt => pt.1 ≠ post_id)
    (true, { db with posts := posts, postTags := postTags })

/-! ## Tag operations -/

def update_tag (db : DBState) (tag_id : Nat) (d : TagUpdate) :
    Option TagRow × DBState :=
  match getTagById db tag_id with
  | none => (none, db)
  | some t =>
    let tags := db.tags.map (fun q => if q.id = tag_id then applyTagUpdate q d else q)
    (some (applyTagUpdate t d), { db with tags := tags })

/-- `DatabaseManager.delete_tag`: association rows cascade, posts survive. -/
def delete_tag (db : DBState) (tag_id : Nat) : Bool × DBState :=
  match getTagById db tag_id with
  | none => (false, db)
  | some _ =>
    let tags := db.tags.filter (fun t => t.id ≠ tag_id)
    let postTags := db.postTags.filter (fun pt => pt.2 ≠ tag_id)
    (true, { db with tags := tags, postTags := postTags })

/-! ## Reset (`DatabaseManager.reset_database`)

The seed script is a list of semicolon-delimited statements; each either
inserts a row or fails (constraint violation, syntax error, ...). All
statements run inside one `get_session` scope: the context manager commits
on normal completion and rolls back on any exception before re-raising. -/

inductive SeedStmt where
  | insUser (u : UserRow) : SeedStmt
  | insPost (p : PostRow) : SeedStmt
  | insTag (t : TagRow) : SeedStmt
  | insPostTag (pt : Nat × Nat) : SeedStmt
  | failing : SeedStmt
deriving Repr, DecidableEq

/-- `session.execute(text(statement))` for one seed statement: `none` models
the statement raising. -/
def execStmt (db : DBState) : SeedStmt → Option DBState
  | .insUser u => some { db with users := db.users ++ [u] }
  | .insPost p => some { db with posts := db.posts ++ [p] }
  | .insTag t => some { db with tags := db.tags ++ [t] }
  | .insPostTag pt => some { db with postTags := db.postTags ++ [pt] }
  | .failing => none

/-- The statement loop of `reset_database`: statements run in order inside
the single transaction; the first failure aborts the remainder. -/
def runScript : DBState → List SeedStmt → Option DBState
  | db, [] => some db
  | db, s :: rest =>
    match execStmt db s with
    | none => none
    | some db2 => runScript db2 rest

/-- `DatabaseManager.reset_database`: the schema is dropped and recreated
(committed DDL, leaving `emptyDB`), then the seed script runs inside one
`get_session` scope — committed as a whole on success, rolled back as a
whole if any statement raises. -/
def reset_database (script : List SeedStmt) : DBState :=
  match runScript emptyDB script with
  | some db => db
  | none => emptyDB

/-- The reset behaviour the spec describes (§4.3): a statement failure aborts
the remainder while the statements executed before the failure remain
applied — i.e. no rollback of the partial prefix. Stated for comparison with
`reset_database`. -/
def reset_database_claimed (script : List SeedStmt) : DBState :=
  go emptyDB script
where
  go : DBState → List SeedStmt → DBState
    | db, [] => db
    | db, s :: rest =>
      match execStmt db s with
      | none => db
      | some db2 => go db2 rest

/-! ## Spec-side search predicates

Stated from the spec's words (§4.3 search row, §8) for comparison with the
predicates derived from the code. -/

/-- A user matches per the spec: either no text filter is provided, or at
least one provided filter matches its column case-insensitively as a
substring. -/
def userMatchesSpec (p : UserSearch) (u : UserRow) : Bool :=
  (!truthyStr p.nickname && !truthyStr p.email && !truthyStr p.location && !truthyStr p.job_title)
  || (truthyStr p.nickname && strContainsCI u.nickname (p.nickname.getD ""))
  || (truthyStr p.email && strContainsCI u.email (p.email.getD ""))
  || (truthyStr p.location && optContainsCI u.location (p.location.getD ""))
  || (truthyStr p.job_title && optContainsCI u.job_title (p.job_title.getD ""))

/-- A post matches per the spec: no provided text filter, or at least one
provided filter matches. -/
def postMatchesSpec (p : PostSearch) (q : PostRow) : Bool :=
  (!truthyStr p.title && !truthyStr p.content)
  || (truthyStr p.title && strContainsCI q.title (p.title.getD ""))
  || (truthyStr p.content && strContainsCI q.content (p.content.getD ""))

/-! ## Concrete sample data for witnesses and counterexamples -/

def sampleUser : UserRow :=
  { id := 1, first_name := "Ada", last_name := "Love", nickname := "ada",
    password := "pw", email := "ada@example.com", birthdate := "1990-01-01",
    location := some "Kyiv", gender := none, job_title := some "Tester",
    phone := none }

def samplePost : PostRow :=
  { id := 1, author_id := 1, title := "First", content := "hello",
    rating := 0, views := 0, is_published := true }

def sampleTag : TagRow := { id := 1, title := "news", description := none }

def sampleTag2 : TagRow := { id := 2, title := "tech", description := none }

def sampleDB : DBState :=
  { users := [sampleUser], posts := [samplePost],
    tags := [sampleTag, sampleTag2], postTags := [(1, 2)] }

def samplePC : PostCreate :=
  { title := "T", content := "C", is_published := true, tag_ids := [7] }

/-! ## Helper lemmas -/

theorem nodup_length_eq_of_subsets {l1 l2 : List Nat} (h1 : l1.Nodup) (h2 : l2.Nodup)
    (ha : l1 ⊆ l2) (hb : l2 ⊆ l1) : l1.length = l2.length := by
  have e1 := List.toFinset_card_of_nodup h1
  have e2 := List.toFinset_card_of_nodup h2
  have e3 : l1.toFinset = l2.toFinset := by
    apply Finset.Subset.antisymm <;> intro x hx <;> simp only [List.mem_toFinset] at * <;>
      [exact ha hx; exact hb hx]
  rw [e3] at e1
  omega

theorem nodup_length_lt_of_missing {l1 l2 : List Nat} (i : Nat) (h1 : l1.Nodup)
    (hi2 : i ∈ l2) (hi1 : i ∉ l1) (ha : l1 ⊆ l2) : l1.length < l2.length := by
  have e1 := List.toFinset_card_of_nodup h1
  have hsub : l1.toFinset ⊆ l2.toFinset.erase i := by
    intro x hx
    simp only [List.mem_toFinset, Finset.mem_erase] at *
    exact ⟨fun hxi => hi1 (hxi ▸ hx), ha hx⟩
  have h3 := Finset.card_le_card hsub
  have h4 := Finset.card_erase_lt_of_mem (List.mem_toFinset.mpr hi2)
  have h5 := l2.toFinset_card_le
  omega

theorem nodup_length_lt_of_dup {l1 l2 : List Nat} (h1 : l1.Nodup) (h2 : ¬ l2.Nodup)
    (ha : l1 ⊆ l2) : l1.length < l2.length := by
  have e1 := List.toFinset_card_of_nodup h1
  have hdd : l2.dedup.length < l2.length := by
    rcases Nat.lt_or_ge l2.dedup.length l2.length with hlt | hge
    · exact hlt
    · exact absurd ((l2.dedup_sublist.eq_of_length
        (Nat.le_antisymm l2.dedup_sublist.length_le hge)) ▸ l2.nodup_dedup) h2
  have e2 : l2.toFinset.card = l2.dedup.length := by
    have : l2.toFinset = l2.dedup.toFinset := by
      ext x; simp
    rw [this, List.toFinset_card_of_nodup l2.nodup_dedup]
  have h3 : l1.toFinset ⊆ l2.toFinset := by
    intro x hx
    simp only [List.mem_toFinset] at *
    exact ha hx
  have h4 := Finset.card_le_card h3
  omega

theorem mem_tagsLookup {db : DBState} {ids : List Nat} {t : TagRow} :
    t ∈ tagsLookup db ids ↔ t ∈ db.tags ∧ t.id ∈ ids := by
  simp [tagsLookup]

theorem tagsLookup_ids_nodup {db : DBState} (ids : List Nat)
    (h : (db.tags.map (fun t => t.id)).Nodup) :
    ((tagsLookup db ids).map (fun t => t.id)).Nodup := by
  exact ((db.tags.filter_sublist).map (fun t => t.id)).nodup h

theorem tagsLookup_ids_subset {db : DBState} {ids : List Nat} :
    (tagsLookup db ids).map (fun t => t.id) ⊆ ids := by
  intro j hj
  simp only [List.mem_map] at hj
  obtain ⟨t, ht, rfl⟩ := hj
  exact (mem_tagsLookup.mp ht).2

theorem tagsLookup_length_lt_missing {db : DBState} {ids : List Nat} {i : Nat}
    (hnd : (db.tags.map (fun t => t.id)).Nodup)
    (hi : i ∈ ids) (hmiss : ∀ t ∈ db.tags, t.id ≠ i) :
    (tagsLookup db ids).length < ids.length := by
  have hlen : ((tagsLookup db ids).map (fun t => t.id)).length = (tagsLookup db ids).length :=
    List.length_map _ _
  rw [← hlen]
  apply nodup_length_lt_of_missing i (tagsLookup_ids_nodup ids hnd) hi _ tagsLookup_ids_subset
  intro hmem
  simp only [List.mem_map] at hmem
  obtain ⟨t, ht, hid⟩ := hmem
  exact hmiss t (mem_tagsLookup.mp ht).1 hid

theorem tagsLookup_ids_supset {db : DBState} {ids : List Nat}
    (hall : ∀ i ∈ ids, ∃ t ∈ db.tags, t.id = i) :
    ids ⊆ (tagsLookup db ids).map (fun t => t.id) := by
  intro j hj
  obtain ⟨t, ht, rfl⟩ := hall j hj
  exact List.mem_map.mpr ⟨t, mem_tagsLookup.mpr ⟨ht, hj⟩, rfl⟩

theorem tagsLookup_length_eq {db : DBState} {ids : List Nat}
    (hnd : (db.tags.map (fun t => t.id)).Nodup) (hids : ids.Nodup)
    (hall : ∀ i ∈ ids, ∃ t ∈ db.tags, t.id = i) :
    (tagsLookup db ids).length = ids.length := by
  have hlen : ((tagsLookup db ids).map (fun t => t.id)).length = (tagsLookup db ids).length :=
    List.length_map _ _
  rw [← hlen]
  exact nodup_length_eq_of_subsets (tagsLookup_ids_nodup ids hnd) hids
    tagsLookup_ids_subset (tagsLookup_ids_supset hall)

theorem tagsLookup_length_lt_dup {db : DBState} {ids : List Nat}
    (hnd : (db.tags.map (fun t => t.id)).Nodup) (hdup : ¬ ids.Nodup) :
    (tagsLookup db ids).length < ids.length := by
  have hlen : ((tagsLookup db ids).map (fun t => t.id)).length = (tagsLookup db ids).length :=
    List.length_map _ _
  rw [← hlen]
  exact nodup_length_lt_of_dup (tagsLookup_ids_nodup ids hnd) hdup tagsLookup_ids_subset

theorem lookup_any_iff {db : DBState} {ids : List Nat} {j : Nat} (hj : j ∈ ids) :
    ((tagsLookup db ids).any (fun t => t.id = j)) = true ↔ ∃ t ∈ db.tags, t.id = j := by
  simp only [List.any_eq_true, decide_eq_true_eq]
  constructor
  · rintro ⟨t, ht, hid⟩
    exact ⟨t, (mem_tagsLookup.mp ht).1, hid⟩
  · rintro ⟨t, ht, hid⟩
    exact ⟨t, mem_tagsLookup.mpr ⟨ht, hid ▸ hj⟩, hid⟩

theorem mem_missingTagIds {db : DBState} {ids : List Nat} {j : Nat} :
    j ∈ missingTagIds db ids ↔ j ∈ ids ∧ ∀ t ∈ db.tags, t.id ≠ j := by
  simp only [missingTagIds, List.mem_dedup, List.mem_filter, decide_eq_true_eq]
  constructor
  · rintro ⟨hj, hno⟩
    exact ⟨hj, fun t ht hid => hno ((lookup_any_iff hj).mpr ⟨t, ht, hid⟩)⟩
  · rintro ⟨hj, hno⟩
    refine ⟨hj, fun hany => ?_⟩
    obtain ⟨t, ht, hid⟩ := (lookup_any_iff hj).mp hany
    exact hno t ht hid

theorem missingTagIds_nil {db : DBState} {ids : List Nat}
    (hall : ∀ i ∈ ids, ∃ t ∈ db.tags, t.id = i) :
    missingTagIds db ids = [] := by
  unfold missingTagIds
  have hfil : ids.filter (fun i => ¬ (tagsLookup db ids).any (fun t => t.id = i)) = [] := by
    rw [List.filter_eq_nil_iff]
    intro j hj
    simp only [decide_eq_true_eq]
    rw [not_not]
    exact (lookup_any_iff hj).mpr (hall j hj)
  rw [hfil, List.dedup_nil]

theorem getUserById_eq_none {db : DBState} {uid : Nat} :
    getUserById db uid = none ↔ ∀ u ∈ db.users, u.id ≠ uid := by
  simp [getUserById, List.find?_eq_none]

theorem getPostById_eq_none {db : DBState} {pid : Nat} :
    getPostById db pid = none ↔ ∀ p ∈ db.posts, p.id ≠ pid := by
  simp [getPostById, List.find?_eq_none]

theorem getTagById_eq_none {db : DBState} {tid : Nat} :
    getTagById db tid = none ↔ ∀ t ∈ db.tags, t.id ≠ tid := by
  simp [getTagById, List.find?_eq_none]

theorem getUserById_isSome {db : DBState} {uid : Nat} :
    (getUserById db uid).isSome ↔ ∃ u ∈ db.users, u.id = uid := by
  simp [getUserById, List.find?_isSome]

theorem getPostById_mem {db : DBState} {pid : Nat} {p : PostRow}
    (h : getPostById db pid = some p) : p ∈ db.posts ∧ p.id = pid := by
  refine ⟨List.mem_of_find?_eq_some h, ?_⟩
  have := List.find?_some h
  simpa using this

theorem applyUserUpdate_empty (u : UserRow) : applyUserUpdate u {} = u := rfl

theorem applyPostUpdate_empty (p : PostRow) : applyPostUpdate p {} = p := rfl

theorem applyTagUpdate_empty (t : TagRow) : applyTagUpdate t {} = t := rfl

/-! ## Claims -/

/-- C9: for every `create_post` call whose `author_id` does not resolve to an
existing User, the operation returns the absence indicator (Python `None`,
neither an exception nor a tags-not-found error) and persists nothing,
regardless of the supplied fields and tag ids. -/
theorem c9_author_not_found (db : DBState) (aid : Nat) (pd : PostCreate)
    (h : getUserById db aid = none) :
    create_post db aid pd = (.authorNotFound, db) := by
  unfold create_post
  rw [h]

theorem c9_witness :
    create_post sampleDB 99 samplePC = (CreatePostResult.authorNotFound, sampleDB) :=
  c9_author_not_found sampleDB 99 samplePC rfl

/-- C3 counterexample: on the two-statement script (one insert, then a
failing statement) the claim predicts the insert remains applied, but
`reset_database` rolls the whole seed transaction back and yields the
empty schema. -/
theorem c3_counterexample :
    reset_database [SeedStmt.insTag sampleTag, SeedStmt.failing] = emptyDB
    ∧ reset_database_claimed [SeedStmt.insTag sampleTag, SeedStmt.failing]
        = { emptyDB with tags := [sampleTag] }
    ∧ ({ emptyDB with tags := [sampleTag] } : DBState) ≠ emptyDB := by
  refine ⟨rfl, rfl, fun h => ?_⟩
  simpa [emptyDB] using congrArg DBState.tags h

/-- C3 amended: if any statement of the seed script fails, the remainder of
the reset is aborted and the session wrapper rolls the seed transaction
back, so the resulting state has the schema recreated but unpopulated — the
statements executed before the failure do NOT remain applied. -/
theorem c3_reset_rollback (script : List SeedStmt)
    (h : runScript emptyDB script = none) :
    reset_database script = emptyDB := by
  unfold reset_database
  rw [h]

theorem c3_witness :
    runScript emptyDB [SeedStmt.insUser sampleUser, SeedStmt.failing] = none
    ∧ reset_database [SeedStmt.insUser sampleUser, SeedStmt.failing] = emptyDB :=
  ⟨rfl, c3_reset_rollback [SeedStmt.insUser sampleUser, SeedStmt.failing] rfl⟩

/-- C4: for every update operation on an existing record, a field omitted
from the update input is left untouched, a field explicitly set to
null/empty is applied as given, and an update with an empty field-set
leaves the record (and the whole state) unchanged. -/
theorem c4_partial_update :
    (∀ (db : DBState) (uid : Nat) (u : UserRow),
        getUserById db uid = some u → update_user db uid {} = (some u, db))
    ∧ (∀ (db : DBState) (tid : Nat) (t : TagRow),
        getTagById db tid = some t → update_tag db tid {} = (some t, db))
    ∧ (∀ (db : DBState) (pid : Nat) (p : PostRow),
        getPostById db pid = some p → update_post db pid {} = (.ok p, db))
    ∧ (∀ (u : UserRow) (d : UserUpdate),
        (d.first_name = none → (applyUserUpdate u d).first_name = u.first_name)
        ∧ (d.last_name = none → (applyUserUpdate u d).last_name = u.last_name)
        ∧ (d.nickname = none → (applyUserUpdate u d).nickname = u.nickname)
        ∧ (d.password = none → (applyUserUpdate u d).password = u.password)
        ∧ (d.email = none → (applyUserUpdate u d).email = u.email)
        ∧ (d.birthdate = none → (applyUserUpdate u d).birthdate = u.birthdate)
        ∧ (d.location = none → (applyUserUpdate u d).location = u.location)
        ∧ (d.gender = none → (applyUserUpdate u d).gender = u.gender)
        ∧ (d.job_title = none → (applyUserUpdate u d).job_title = u.job_title)
        ∧ (d.phone = none → (applyUserUpdate u d).phone = u.phone))
    ∧ (∀ (u : UserRow) (d : UserUpdate) (v : String),
        (d.first_name = some v → (applyUserUpdate u d).first_name = v)
        ∧ (d.last_name = some v → (applyUserUpdate u d).last_name = v)
        ∧ (d.nickname = some v → (applyUserUpdate u d).nickname = v)
        ∧ (d.password = some v → (applyUserUpdate u d).password = v)
        ∧ (d.email = some v → (applyUserUpdate u d).email = v)
        ∧ (d.birthdate = some v → (applyUserUpdate u d).birthdate = v))
    ∧ (∀ (u : UserRow) (d : UserUpdate) (w : Option String),
        (d.location = some w → (applyUserUpdate u d).location = w)
        ∧ (d.gender = some w → (applyUserUpdate u d).gender = w)
        ∧ (d.job_title = some w → (applyUserUpdate u d).job_title = w)
        ∧ (d.phone = some w → (applyUserUpdate u d).phone = w))
    ∧ (∀ (p : PostRow) (d : PostUpdate),
        (d.title = none → (applyPostUpdate p d).title = p.title)
        ∧ (d.content = none → (applyPostUpdate p d).content = p.content)
        ∧ (d.is_published = none → (applyPostUpdate p d).is_published = p.is_published)
        ∧ (∀ v : String, d.title = some v → (applyPostUpdate p d).title = v)
        ∧ (∀ v : String, d.content = some v → (applyPostUpdate p d).content = v)
        ∧ (∀ b : Bool, d.is_published = some b → (applyPostUpdate p d).is_published = b))
    ∧ (∀ (t : TagRow) (d : TagUpdate),
        (d.title = none → (applyTagUpdate t d).title = t.title)
        ∧ (d.description = none → (applyTagUpdate t d).description = t.description)
        ∧ (∀ v : String, d.title = some v → (applyTagUpdate t d).title = v)
        ∧ (∀ w : Option String, d.description = some w → (applyTagUpdate t d).description = w)) := by
  refine ⟨?_, ?_, ?_, ?_, ?_, ?_, ?_, ?_⟩
  · intro db uid u h
    unfold update_user
    rw [h]
    simp [applyUserUpdate_empty]
  · intro db tid t h
    unfold update_tag
    rw [h]
    simp [applyTagUpdate_empty]
  · intro db pid p h
    unfold update_post
    rw [h]
    simp [applyPostUpdate_empty]
  all_goals intros
  all_goals repeat' constructor
  all_goals intros
  all_goals simp_all [applyUserUpdate, applyPostUpdate, applyTagUpdate]

theorem c4_witness :
    update_user sampleDB 1 {} = (some sampleUser, sampleDB)
    ∧ update_tag sampleDB 2 {} = (some sampleTag2, sampleDB)
    ∧ update_post sampleDB 1 {} = (UpdatePostResult.ok samplePost, sampleDB)
    ∧ (applyUserUpdate sampleUser { nickname := some "lovelace" }).email = sampleUser.email
    ∧ (applyUserUpdate sampleUser { location := some none }).location = none :=
  ⟨c4_partial_update.1 sampleDB 1 sampleUser rfl,
   c4_partial_update.2.1 sampleDB 2 sampleTag2 rfl,
   c4_partial_update.2.2.1 sampleDB 1 samplePost rfl,
   (c4_partial_update.2.2.2.1 sampleUser { nickname := some "lovelace" }).2.2.2.2.1 rfl,
   (c4_partial_update.2.2.2.2.2.1 sampleUser { location := some none } none).1 rfl⟩

/-- C6: an identifier that does not resolve makes update return the absence
indicator and delete return `false` (no exception path exists for that
reason: the absence branch is taken before any other check); delete returns
`true` exactly when a row existed, and afterwards no row with that id
remains. -/
theorem c6_absent_id_indicators :
    (∀ (db : DBState) (uid : Nat) (d : UserUpdate), getUserById db uid = none →
        update_user db uid d = (none, db) ∧ delete_user db uid = (false, db))
    ∧ (∀ (db : DBState) (pid : Nat) (d : PostUpdate), getPostById db pid = none →
        update_post db pid d = (.notFound, db) ∧ delete_post db pid = (false, db))
    ∧ (∀ (db : DBState) (tid : Nat) (d : TagUpdate), getTagById db tid = none →
        update_tag db tid d = (none, db) ∧ delete_tag db tid = (false, db))
    ∧ (∀ (db : DBState) (uid : Nat),
        (delete_user db uid).1 = true ↔ ∃ u ∈ db.users, u.id = uid)
    ∧ (∀ (db : DBState) (pid : Nat),
        (delete_post db pid).1 = true ↔ ∃ p ∈ db.posts, p.id = pid)
    ∧ (∀ (db : DBState) (tid : Nat),
        (delete_tag db tid).1 = true ↔ ∃ t ∈ db.tags, t.id = tid)
    ∧ (∀ (db : DBState) (uid : Nat) (u : UserRow),
        u ∈ (delete_user db uid).2.users → u.id ≠ uid)
    ∧ (∀ (db : DBState) (pid : Nat) (p : PostRow),
        p ∈ (delete_post db pid).2.posts → p.id ≠ pid)
    ∧ (∀ (db : DBState) (tid : Nat) (t : TagRow),
        t ∈ (delete_tag db tid).2.tags → t.id ≠ tid) := by
  refine ⟨?_, ?_, ?_, ?_, ?_, ?_, ?_, ?_, ?_⟩
  · intro db uid d h
    unfold update_user delete_user
    rw [h]
    exact ⟨rfl, rfl⟩
  · intro db pid d h
    unfold update_post delete_post
    rw [h]
    exact ⟨rfl, rfl⟩
  · intro db tid d h
    unfold update_tag delete_tag
    rw [h]
    exact ⟨rfl, rfl⟩
  · intro db uid
    rcases h : getUserById db uid with _ | u
    · unfold delete_user
      rw [h]
      simp only [Bool.false_eq_true, false_iff, not_exists]
      intro x
      rw [not_and]
      exact fun hx => getUserById_eq_none.mp h x hx
    · unfold delete_user
      rw [h]
      simp only [true_iff]
      refine ⟨u, List.mem_of_find?_eq_some h, ?_⟩
      simpa using List.find?_some h
  · intro db pid
    rcases h : getPostById db pid with _ | p
    · unfold delete_post
      rw [h]
      simp only [Bool.false_eq_true, false_iff, not_exists]
      intro x
      rw [not_and]
      exact fun hx => getPostById_eq_none.mp h x hx
    · unfold delete_post
      rw [h]
      simp only [true_iff]
      refine ⟨p, List.mem_of_find?_eq_some h, ?_⟩
      simpa using List.find?_some h
  · intro db tid
    rcases h : getTagById db tid with _ | t
    · unfold delete_tag
      rw [h]
      simp only [Bool.false_eq_true, false_iff, not_exists]
      intro x
      rw [not_and]
      exact fun hx => getTagById_eq_none.mp h x hx
    · unfold delete_tag
      rw [h]
      simp only [true_iff]
      refine ⟨t, List.mem_of_find?_eq_some h, ?_⟩
      simpa using List.find?_some h
  · intro db uid u hu
    rcases h : getUserById db uid with _ | w
    · rw [delete_user, h] at hu
      exact getUserById_eq_none.mp h u hu
    · rw [delete_user, h] at hu
      simp only [List.mem_filter, decide_eq_true_eq] at hu
      exact hu.2
  · intro db pid p hp
    rcases h : getPostById db pid with _ | w
    · rw [delete_post, h] at hp
      exact getPostById_eq_none.mp h p hp
    · rw [delete_post, h] at hp
      simp only [List.mem_filter, decide_eq_true_eq] at hp
      exact hp.2
  · intro db tid t ht
    rcases h : getTagById db tid with _ | w
    · rw [delete_tag, h] at ht
      exact getTagById_eq_none.mp h t ht
    · rw [delete_tag, h] at ht
      simp only [List.mem_filter, decide_eq_true_eq] at ht
      exact ht.2

theorem c6_witness :
    update_user sampleDB 42 {} = (none, sampleDB)
    ∧ delete_user sampleDB 42 = (false, sampleDB)
    ∧ update_post sampleDB 42 {} = (UpdatePostResult.notFound, sampleDB)
    ∧ delete_post sampleDB 42 = (false, sampleDB)
    ∧ update_tag sampleDB 42 {} = (none, sampleDB)
    ∧ delete_tag sampleDB 42 = (false, sampleDB)
    ∧ (delete_tag sampleDB 2).1 = true :=
  ⟨(c6_absent_id_indicators.1 sampleDB 42 {} rfl).1,
   (c6_absent_id_indicators.1 sampleDB 42 {} rfl).2,
   (c6_absent_id_indicators.2.1 sampleDB 42 {} rfl).1,
   (c6_absent_id_indicators.2.1 sampleDB 42 {} rfl).2,
   (c6_absent_id_indicators.2.2.1 sampleDB 42 {} rfl).1,
   (c6_absent_id_indicators.2.2.1 sampleDB 42 {} rfl).2,
   (c6_absent_id_indicators.2.2.2.2.2.1 sampleDB 2).mpr
     ⟨sampleTag2, by simp [sampleDB], rfl⟩⟩

/-- C7: after a successful `delete_user`, every Post authored by that user
is gone — `getPostById` returns the absence indicator — and no association
row of such a post survives. The primary-key hypothesis states that stored
post ids are distinct. -/
theorem c7_delete_user_cascades (db : DBState) (uid : Nat) (p : PostRow)
    (hu : ∃ u ∈ db.users, u.id = uid)
    (hp : p ∈ db.posts) (hauthor : p.author_id = uid)
    (hnd : (db.posts.map (fun q => q.id)).Nodup) :
    (delete_user db uid).1 = true
    ∧ getPostById (delete_user db uid).2 p.id = none
    ∧ ∀ pt ∈ (delete_user db uid).2.postTags, pt.1 ≠ p.id := by
  obtain ⟨u, hum, huid⟩ := hu
  obtain ⟨w, hw⟩ := Option.isSome_iff_exists.mp (getUserById_isSome.mpr ⟨u, hum, huid⟩)
  unfold delete_user
  rw [hw]
  refine ⟨rfl, ?_, ?_⟩
  · rw [getPostById_eq_none]
    intro q hq
    simp only [List.mem_filter, decide_eq_true_eq] at hq
    intro hid
    have hqp : q = p := List.inj_on_of_nodup_map hnd hq.1 hp hid
    rw [hqp] at hq
    exact hq.2 hauthor
  · intro pt hpt
    simp only [List.mem_filter, decide_eq_true_eq] at hpt
    intro hid
    apply hpt.2
    simp only [List.any_eq_true, decide_eq_true_eq]
    refine ⟨p, ?_, by rw [hid]⟩
    simp only [List.mem_filter, decide_eq_true_eq]
    exact ⟨hp, hauthor⟩

theorem c7_witness :
    (delete_user sampleDB 1).1 = true
    ∧ getPostById (delete_user sampleDB 1).2 1 = none :=
  ⟨(c7_delete_user_cascades sampleDB 1 samplePost ⟨sampleUser, by simp [sampleDB], rfl⟩
      (by simp [sampleDB]) rfl (by simp [sampleDB])).1,
   (c7_delete_user_cascades sampleDB 1 samplePost ⟨sampleUser, by simp [sampleDB], rfl⟩
      (by simp [sampleDB]) rfl (by simp [sampleDB])).2.1⟩

theorem truthyStr_some_empty : truthyStr (some "") = false := rfl

theorem truthyStr_none : truthyStr none = false := rfl

theorem userMatches_congr (a b : UserSearch)
    (h : userFilterClauses a = userFilterClauses b) :
    userMatches a = userMatches b := by
  funext u
  unfold userMatches
  rw [h]

theorem postMatches_congr (a b : PostSearch)
    (h : postFilterClauses a = postFilterClauses b) :
    postMatches a = postMatches b := by
  funext q
  unfold postMatches
  rw [h]

/-- C10: a text filter provided as the empty string is falsy in the
presence test and therefore imposes no constraint, exactly like an absent
filter — for every field of both search operations. -/
theorem c10_empty_filter_no_constraint :
    (∀ (db : DBState) (p : UserSearch),
        search_users db { p with nickname := some "" }
          = search_users db { p with nickname := none }
        ∧ search_users db { p with email := some "" }
          = search_users db { p with email := none }
        ∧ search_users db { p with location := some "" }
          = search_users db { p with location := none }
        ∧ search_users db { p with job_title := some "" }
          = search_users db { p with job_title := none })
    ∧ (∀ (db : DBState) (p : PostSearch),
        search_posts db { p with title := some "" }
          = search_posts db { p with title := none }
        ∧ search_posts db { p with content := some "" }
          = search_posts db { p with content := none }) := by
  constructor
  · intro db p
    refine ⟨?_, ?_, ?_, ?_⟩
    · unfold search_users
      rw [userMatches_congr { p with nickname := some "" } { p with nickname := none }
        (by simp [userFilterClauses, truthyStr_some_empty, truthyStr_none])]
    · unfold search_users
      rw [userMatches_congr { p with email := some "" } { p with email := none }
        (by simp [userFilterClauses, truthyStr_some_empty, truthyStr_none])]
    · unfold search_users
      rw [userMatches_congr { p with location := some "" } { p with location := none }
        (by simp [userFilterClauses, truthyStr_some_empty, truthyStr_none])]
    · unfold search_users
      rw [userMatches_congr { p with job_title := some "" } { p with job_title := none }
        (by simp [userFilterClauses, truthyStr_some_empty, truthyStr_none])]
  · intro db p
    refine ⟨?_, ?_⟩
    · unfold search_posts
      rw [postMatches_congr { p with title := some "" } { p with title := none }
        (by simp [postFilterClauses, truthyStr_some_empty, truthyStr_none])]
    · unfold search_posts
      rw [postMatches_congr { p with content := some "" } { p with content := none }
        (by simp [postFilterClauses, truthyStr_some_empty, truthyStr_none])]

/-- C5: a row enters the (pre-pagination) result sequence iff it matches at
least one provided text filter — logical OR, case-insensitive substring —
with absent filters imposing no constraint (none provided keeps every row),
and the search result is that filtered sequence paginated by skip/limit:
the code predicate coincides with the spec predicate and the search is its
filter followed by pagination. -/
theorem c5_search_or_semantics :
    (∀ (p : UserSearch) (u : UserRow), userMatches p u = userMatchesSpec p u)
    ∧ (∀ (db : DBState) (p : UserSearch),
        search_users db p = paginate (db.users.filter (userMatchesSpec p)) p.skip p.limit)
    ∧ (∀ (p : PostSearch) (q : PostRow), postMatches p q = postMatchesSpec p q)
    ∧ (∀ (db : DBState) (p : PostSearch),
        search_posts db p = paginate (db.posts.filter (postMatchesSpec p)) p.skip p.limit) := by
  have hu : ∀ (p : UserSearch) (u : UserRow), userMatches p u = userMatchesSpec p u := by
    intro p u
    unfold userMatches userFilterClauses userMatchesSpec
    cases hn : truthyStr p.nickname <;> cases he : truthyStr p.email <;>
      cases hl : truthyStr p.location <;> cases hj : truthyStr p.job_title <;>
        simp [Bool.or_assoc]
  have hp : ∀ (p : PostSearch) (q : PostRow), postMatches p q = postMatchesSpec p q := by
    intro p q
    unfold postMatches postFilterClauses postMatchesSpec
    cases ht : truthyStr p.title <;> cases hc : truthyStr p.content <;>
      simp [Bool.or_assoc]
  refine ⟨hu, ?_, hp, ?_⟩
  · intro db p
    unfold search_users
    rw [List.filter_congr (fun u _ => hu p u)]
  · intro db p
    unfold search_posts
    rw [List.filter_congr (fun q _ => hp p q)]

/-- C1 counterexample: with an author id (99) that resolves to no User and a
tag list containing the unknown id 7, `create_post` returns the
author-absence indicator `None` — not the tags-not-found error with missing
set containing 7 that the claim asserts for every such call. -/
theorem c1_counterexample :
    (sampleDB.tags.all (fun t => t.id ≠ 7)) = true
    ∧ create_post sampleDB 99 samplePC = (CreatePostResult.authorNotFound, sampleDB)
    ∧ (create_post sampleDB 99 samplePC).1 ≠ CreatePostResult.tagsNotFound [7] := by
  refine ⟨by decide, rfl, by decide⟩

/-- C1 amended: for every `create_post` call whose author id resolves to an
existing User and whose tag list contains at least one id not resolving to
an existing Tag, the call fails with the tags-not-found error, persists
nothing (the state is returned unchanged), and the reported missing-id set
is exactly the unknown subset of the input ids (stored tag primary keys
assumed distinct). -/
theorem c1_tags_not_found (db : DBState) (aid : Nat) (pd : PostCreate) (i : Nat)
    (hnd : (db.tags.map (fun t => t.id)).Nodup)
    (ha : (getUserById db aid).isSome)
    (hi : i ∈ pd.tag_ids) (hmiss : ∀ t ∈ db.tags, t.id ≠ i) :
    create_post db aid pd = (.tagsNotFound (missingTagIds db pd.tag_ids), db)
    ∧ ∀ j, (j ∈ missingTagIds db pd.tag_ids ↔ j ∈ pd.tag_ids ∧ ∀ t ∈ db.tags, t.id ≠ j) := by
  obtain ⟨w, hw⟩ := Option.isSome_iff_exists.mp ha
  have hne : pd.tag_ids ≠ [] := fun h => by simp [h] at hi
  have hlen := tagsLookup_length_lt_missing hnd hi hmiss
  constructor
  · simp only [create_post, hw]
    rw [if_pos hne, if_pos (Nat.ne_of_lt hlen)]
  · intro j
    exact mem_missingTagIds

theorem c1_witness :
    create_post sampleDB 1 samplePC
      = (CreatePostResult.tagsNotFound (missingTagIds sampleDB [7]), sampleDB)
    ∧ missingTagIds sampleDB [7] = [7] :=
  ⟨(c1_tags_not_found sampleDB 1 samplePC 7 (by decide) rfl (by decide) (by decide)).1,
   by decide⟩

/-- C8 counterexample: the list [1, 1] has duplicate ids that all resolve in
`sampleDB`, yet `create_post` with the unknown author 99 returns `None`
(author absence), not the tags-not-found error the claim asserts for every
such call. -/
theorem c8_counterexample :
    ¬ ([1, 1] : List Nat).Nodup
    ∧ (([1, 1] : List Nat).all (fun i => sampleDB.tags.any (fun t => t.id = i))) = true
    ∧ create_post sampleDB 99
        { title := "T", content := "C", is_published := true, tag_ids := [1, 1] }
        = (CreatePostResult.authorNotFound, sampleDB) := by
  refine ⟨by decide, by decide, rfl⟩

/-- C8 amended: for every `create_post` call whose author resolves (resp.
`update_post` call whose post id resolves) and whose supplied tag list
contains duplicates that all resolve to existing Tags, the operation fails
with a tags-not-found error whose reported missing set is empty, because
the distinct matching rows are fewer than the list entries (stored tag
primary keys assumed distinct). -/
theorem c8_duplicate_tags (db : DBState) :
    (∀ (aid : Nat) (pd : PostCreate),
      (db.tags.map (fun t => t.id)).Nodup → (getUserById db aid).isSome →
      ¬ pd.tag_ids.Nodup → (∀ i ∈ pd.tag_ids, ∃ t ∈ db.tags, t.id = i) →
      create_post db aid pd = (.tagsNotFound [], db))
    ∧ (∀ (pid : Nat) (d : PostUpdate) (ids : List Nat),
      (db.tags.map (fun t => t.id)).Nodup → (getPostById db pid).isSome →
      d.tag_ids = some (some ids) → ¬ ids.Nodup →
      (∀ i ∈ ids, ∃ t ∈ db.tags, t.id = i) →
      update_post db pid d = (.tagsNotFound [], db)) := by
  constructor
  · intro aid pd hnd ha hdup hall
    obtain ⟨w, hw⟩ := Option.isSome_iff_exists.mp ha
    have hne : pd.tag_ids ≠ [] := fun h => hdup (h ▸ List.nodup_nil)
    have hlen := tagsLookup_length_lt_dup hnd hdup
    simp only [create_post, hw]
    rw [if_pos hne, if_pos (Nat.ne_of_lt hlen), missingTagIds_nil hall]
  · intro pid d ids hnd hp htag hdup hall
    obtain ⟨w, hw⟩ := Option.isSome_iff_exists.mp hp
    have hlen := tagsLookup_length_lt_dup hnd hdup
    simp only [update_post, hw, htag]
    rw [if_pos (Nat.ne_of_lt hlen), missingTagIds_nil hall]

theorem c8_witness :
    create_post sampleDB 1
      { title := "T", content := "C", is_published := true, tag_ids := [1, 1] }
      = (CreatePostResult.tagsNotFound [], sampleDB) :=
  (c8_duplicate_tags sampleDB).1 1
    { title := "T", content := "C", is_published := true, tag_ids := [1, 1] }
    (by decide) rfl (by decide) (by decide)

/-- C2 counterexample: post 1 and tag 1 exist and every id in the supplied
list [1, 1] resolves, yet the update fails with an empty tags-not-found
error and leaves the association rows untouched — so the association set
afterwards is not the supplied set, refuting the claim as stated. -/
theorem c2_counterexample :
    (([1, 1] : List Nat).all (fun i => sampleDB.tags.any (fun t => t.id = i))) = true
    ∧ getPostById sampleDB 1 = some samplePost
    ∧ update_post sampleDB 1 { tag_ids := some (some [1, 1]) }
        = (UpdatePostResult.tagsNotFound [], sampleDB)
    ∧ (1, 1) ∉ (update_post sampleDB 1 { tag_ids := some (some [1, 1]) }).2.postTags := by
  refine ⟨by decide, rfl, rfl, by decide⟩

/-- C2 amended: when `update_post` explicitly supplies a duplicate-free tag
list in which every id resolves, the update succeeds and the post's
association set afterwards is exactly the supplied set (full replacement);
when the supplied list contains any unknown id, the whole update fails with
the tags-not-found error and the state is returned unchanged — no supplied
field is applied (stored tag primary keys assumed distinct). -/
theorem c2_tag_replacement (db : DBState) :
    (∀ (pid : Nat) (d : PostUpdate) (ids : List Nat) (p : PostRow),
      (db.tags.map (fun t => t.id)).Nodup →
      getPostById db pid = some p →
      d.tag_ids = some (some ids) → ids.Nodup →
      (∀ i ∈ ids, ∃ t ∈ db.tags, t.id = i) →
      (update_post db pid d).1 = .ok (applyPostUpdate p d)
      ∧ ∀ j, ((pid, j) ∈ (update_post db pid d).2.postTags ↔ j ∈ ids))
    ∧ (∀ (pid : Nat) (d : PostUpdate) (ids : List Nat) (p : PostRow) (i : Nat),
      (db.tags.map (fun t => t.id)).Nodup →
      getPostById db pid = some p →
      d.tag_ids = some (some ids) →
      i ∈ ids → (∀ t ∈ db.tags, t.id ≠ i) →
      update_post db pid d = (.tagsNotFound (missingTagIds db ids), db)) := by
  constructor
  · intro pid d ids p hnd hfind htag hidnd hall
    have hleneq := tagsLookup_length_eq hnd hidnd hall
    have heq : update_post db pid d
        = (.ok (applyPostUpdate p d),
           { db with
             posts := db.posts.map (fun q => if q.id = pid then applyPostUpdate q d else q)
             postTags := db.postTags.filter (fun pt => pt.1 ≠ pid)
               ++ (tagsLookup db ids).map (fun t => (pid, t.id)) }) := by
      simp only [update_post, hfind, htag]
      rw [if_neg (fun h => h hleneq)]
    rw [heq]
    refine ⟨rfl, ?_⟩
    intro j
    simp only [List.mem_append, List.mem_filter, List.mem_map, decide_eq_true_eq,
      Prod.mk.injEq]
    constructor
    · rintro (⟨_, hne⟩ | ⟨t, ht, _, hid⟩)
      · exact absurd rfl hne
      · exact hid ▸ (mem_tagsLookup.mp ht).2
    · intro hj
      obtain ⟨t, ht, rfl⟩ := hall j hj
      exact Or.inr ⟨t, mem_tagsLookup.mpr ⟨ht, hj⟩, trivial, rfl⟩
  · intro pid d ids p i hnd hfind htag hi hmiss
    have hlen := tagsLookup_length_lt_missing hnd hi hmiss
    simp only [update_post, hfind, htag]
    rw [if_pos (Nat.ne_of_lt hlen)]

theorem c2_witness :
    (update_post sampleDB 1 { tag_ids := some (some [2]) }).1
      = UpdatePostResult.ok samplePost
    ∧ ((1, 2) ∈ (update_post sampleDB 1 { tag_ids := some (some [2]) }).2.postTags)
    ∧ ¬ ((1, 5) ∈ (update_post sampleDB 1 { tag_ids := some (some [2]) }).2.postTags) :=
  ⟨((c2_tag_replacement sampleDB).1 1 { tag_ids := some (some [2]) } [2] samplePost
      (by decide) rfl rfl (by decide) (by decide)).1,
   (((c2_tag_replacement sampleDB).1 1 { tag_ids := some (some [2]) } [2] samplePost
      (by decide) rfl rfl (by decide) (by decide)).2 2).mpr (by decide),
   fun h => by
     have := (((c2_tag_replacement sampleDB).1 1 { tag_ids := some (some [2]) } [2]
       samplePost (by decide) rfl rfl (by decide) (by decide)).2 5).mp h
     simp at this⟩
